import Mathlib

/-!
Verification of `src/tools/gcp_bigquery.py`, a read-only BigQuery CLI tool.

The Python source is shallowly embedded: the query text is a `List Char`,
the regular-expression searches of `NON_READONLY_PATTERNS` are executable
Boolean searches over character lists, and the interactions with the
external `google.cloud.bigquery` client are modelled by explicit service
oracles (records of plain data and functions) together with logs of the
service calls issued and of the lines printed to the standard output and
standard error streams.
-/

namespace BQ

/-! ## Query Safety Filter (lines 40-44 and 169-182)

`NON_READONLY_PATTERNS` consists of three compiled case-insensitive
regular expressions:
  `\b(INSERT|UPDATE|DELETE|CREATE|DROP|ALTER|MERGE|TRUNCATE)\b`,
  `\bGRANT\b.*\bTO\b`, and `\bREVOKE\b.*\bFROM\b`.
We embed `pattern.search` for each of them.  `\b` is a word boundary
(word characters are letters, digits and the underscore), `.` matches
any character except the newline, and `re.IGNORECASE` compares letters
case-insensitively.
-/

/-- A word character for the purposes of the `\b` boundary: ASCII letter,
digit or underscore (the queries under consideration are ASCII SQL). -/
def isWordChar (c : Char) : Bool :=
  c.isAlpha || c.isDigit || c == '_'

/-- Case-insensitive whole-word occurrence of `kw` starting at offset `i`
of `s`: the lowered keyword is a prefix of the lowered text dropped at
`i`, and the characters adjacent to the occurrence (when they exist) are
not word characters.  This is `\bKW\b` matching at position `i` under
`re.IGNORECASE`. -/
def occursAt (kw s : List Char) (i : Nat) : Bool :=
  (kw.map Char.toLower).isPrefixOf ((s.map Char.toLower).drop i)
    && (i == 0 || !isWordChar (s.getD (i - 1) ' '))
    && (decide (s.length ≤ i + kw.length) || !isWordChar (s.getD (i + kw.length) ' '))

/-- `pattern.search` for a single whole-word keyword alternative:
does `\bKW\b` match anywhere in `s`? -/
def searchWord (kw s : List Char) : Bool :=
  (List.range (s.length + 1)).any (occursAt kw s)

/-- `pattern.search` for `\bKW1\b.*\bKW2\b`: a whole-word occurrence of
`kw1` at `i`, a whole-word occurrence of `kw2` at `j` with the span
between the end of `kw1` and the start of `kw2` free of newlines
(`.` does not match a newline without `re.DOTALL`). -/
def searchSpan (kw1 kw2 s : List Char) : Bool :=
  (List.range (s.length + 1)).any fun i =>
    occursAt kw1 s i
      && (List.range (s.length + 1)).any fun j =>
        decide (i + kw1.length ≤ j) && occursAt kw2 s j
          && ((s.drop (i + kw1.length)).take (j - (i + kw1.length))).all
              (fun c => !(c == '\n'))

/-- The eight mutating keywords of the first pattern's alternation. -/
def MUTATING_KEYWORDS : List (List Char) :=
  ["INSERT".data, "UPDATE".data, "DELETE".data, "CREATE".data,
   "DROP".data, "ALTER".data, "MERGE".data, "TRUNCATE".data]

/-- `NON_READONLY_PATTERNS` (line 40): each compiled pattern is embedded
by its `search` function. -/
def NON_READONLY_PATTERNS : List (List Char → Bool) :=
  [fun s => MUTATING_KEYWORDS.any (fun kw => searchWord kw s),
   fun s => searchSpan "GRANT".data "TO".data s,
   fun s => searchSpan "REVOKE".data "FROM".data s]

/-- The loop of `is_readonly_query` (lines 179-182): for each pattern,
if it matches, return `False`; after the loop return `True`. -/
def checkPatterns : List (List Char → Bool) → List Char → Bool
  | [], _ => true
  | p :: ps, q => if p q then false else checkPatterns ps q

/-- `BigQueryTool.is_readonly_query` (lines 169-182). -/
def is_readonly_query (query : List Char) : Bool :=
  checkPatterns NON_READONLY_PATTERNS query

/-! ### Declarative characterization of the patterns (the spec's wording) -/

/-- Declarative counterpart of `occursAt`: a case-insensitive whole-word
occurrence of `kw` at offset `i` of `s`. -/
def OccursAtP (kw s : List Char) (i : Nat) : Prop :=
  i + kw.length ≤ s.length ∧
  ((s.drop i).take kw.length).map Char.toLower = kw.map Char.toLower ∧
  (i = 0 ∨ isWordChar (s.getD (i - 1) ' ') = false) ∧
  (s.length ≤ i + kw.length ∨ isWordChar (s.getD (i + kw.length) ' ') = false)

/-- The query contains a whole-word, case-insensitive occurrence of `kw`. -/
def ContainsWholeWordCI (kw s : List Char) : Prop :=
  ∃ i, OccursAtP kw s i

/-- The query matches the `\bKW1\b.*\bKW2\b` span pattern: a whole-word
`kw1`, later a whole-word `kw2`, with no newline in between. -/
def MatchesSpanCI (kw1 kw2 s : List Char) : Prop :=
  ∃ i j, OccursAtP kw1 s i ∧ OccursAtP kw2 s j ∧ i + kw1.length ≤ j ∧
    ∀ c ∈ (s.drop (i + kw1.length)).take (j - (i + kw1.length)), c ≠ '\n'

/-- The query matches at least one of the three `NON_READONLY_PATTERNS`. -/
def NonReadonly (q : List Char) : Prop :=
  (∃ kw ∈ MUTATING_KEYWORDS, ContainsWholeWordCI kw q) ∨
  MatchesSpanCI "GRANT".data "TO".data q ∨
  MatchesSpanCI "REVOKE".data "FROM".data q

/-! ## `BigQueryTool.run_query` (lines 184-230)

The external warehouse service is modelled by an oracle describing how it
would answer the one query of a `run_query` call, and `run_query` returns,
besides its Python return value, the log of the calls it issued to the
service. -/

/-- A query-result scalar, modelled by its textual form. -/
abbrev Value := String

/-- Oracle for the warehouse service's behavior on a submitted query:
whether `client.query`/its job raises `GoogleCloudError`, the dry-run
byte estimate, the result schema's field names in order, and the result
rows in service order. -/
structure QueryService where
  failQuery : Bool
  errMsg : String
  total_bytes_processed : Nat
  schemaFieldNames : List String
  resultRows : List (List Value)

/-- One call issued to the warehouse service by `run_query`. -/
inductive ServiceCall where
  | queryJob (text : List Char) (dryRun : Bool)
  | fetchResults (maxResults : Nat)
deriving DecidableEq, Repr

/-- The Python return value of `run_query`: a list of rows (each an
ordered mapping from field name to value, i.e. a Python dict in insertion
order) or a message string. -/
inductive QueryOutcome where
  | rows (rs : List (List (String × Value)))
  | msg (s : String)
deriving DecidableEq, Repr

/-- Lines 220-222: `row_dict[field_name] = row[i]` for
`i, field_name in enumerate(field_names)`. -/
def mkRowDict (fieldNames : List String) (row : List Value) : List (String × Value) :=
  fieldNames.enum.map (fun p => (p.2, row.getD p.1 ""))

/-- Lines 218-226: the row-consumption loop with its `row_count` counter
and the `if row_count >= 5: break`. -/
def consumeLoop (fieldNames : List String) :
    List (List Value) → Nat → List (List (String × Value))
  | [], _ => []
  | row :: rest, row_count =>
      let d := mkRowDict fieldNames row
      if 5 ≤ row_count + 1 then [d]
      else d :: consumeLoop fieldNames rest (row_count + 1)

/-- The fixed rejection message of line 197. -/
def REJECT_MSG : String :=
  "Error: Only read-only queries are allowed. Data modification operations detected."

/-- `BigQueryTool.run_query` (lines 184-230).  Returns the Python return
value together with the list of service calls issued, in order.
`query_job.result(max_results=5)` is the `fetchResults 5` call and yields
at most the first 5 service rows. -/
def run_query (svc : QueryService) (query : List Char) (dry_run : Bool) :
    QueryOutcome × List ServiceCall :=
  if !(is_readonly_query query) then
    (.msg REJECT_MSG, [])
  else if svc.failQuery then
    (.msg ("Error executing query: " ++ svc.errMsg), [.queryJob query dry_run])
  else if dry_run then
    (.msg ("Query validation successful. Estimated bytes processed: " ++
           toString svc.total_bytes_processed ++ " bytes."),
     [.queryJob query dry_run])
  else
    (.rows (consumeLoop svc.schemaFieldNames (svc.resultRows.take 5) 0),
     [.queryJob query dry_run, .fetchResults 5])

/-! ## `format_output` (lines 232-252) -/

/-- The argument of `format_output`: Python passes either a list of row
dicts or a plain string. -/
inductive FormatData where
  | rows (rs : List (List (String × Value)))
  | str (s : String)
deriving DecidableEq, Repr

/-- Python truthiness check of line 243, `if not data:`. -/
def FormatData.falsy : FormatData → Bool
  | .rows rs => rs.isEmpty
  | .str s => s.isEmpty

/-- `format_output` (lines 232-252).  The external `tabulate` rendering
and Python's `str()` on a row list are supplied as the functions
`tabulateFn` and `strFn`. -/
def format_output (tabulateFn strFn : List (List (String × Value)) → String)
    (data : FormatData) (format_type : String) : String :=
  if data.falsy then "No data to display."
  else
    match data with
    | .str s => s
    | .rows rs => if format_type = "table" then tabulateFn rs else strFn rs

/-- The value `run_query` hands to `format_output` in `main`. -/
def QueryOutcome.toFormatData : QueryOutcome → FormatData
  | .rows rs => .rows rs
  | .msg s => .str s

/-! ## Listing and schema commands (lines 69-167) -/

/-- Metadata of one table as returned by `client.get_table`. -/
structure TableInfo where
  table_type : String
  description : Option String

/-- One field of `table.schema` as returned by `client.get_table`. -/
structure SchemaField where
  name : String
  field_type : String
  is_nullable : Bool
  description : Option String

/-- Oracle for the warehouse service outside `run_query`: client
construction, dataset/table enumeration and descriptor fetches.  A
`Bool` flag set means the corresponding client call raises
`GoogleCloudError`; an `Except.error` from a per-item fetch means that
call raises. -/
structure ServiceEnv where
  clientFails : Bool
  connectErr : String
  clientDefaultProject : String
  listDatasetsFails : Bool
  listErr : String
  datasetIds : List String
  getDataset : String → Except String (Option String)
  listTablesFails : Bool
  tablesErr : String
  tableIds : List String
  getTable : String → Except String TableInfo
  getSchemaFails : Bool
  schemaErr : String
  schemaFields : List SchemaField
  queryService : QueryService

/-- The result of a command handler: the Python return value, or the code
of the `sys.exit` it performed, together with the lines it printed (the
handlers print only to stdout). -/
structure CmdResult (α : Type) where
  val : Except Nat α
  out : List String

/-- Lines 88-93: the description of one dataset — the empty string when
the full-descriptor fetch raises or the description is absent. -/
def datasetDescription (svc : ServiceEnv) (dataset_id : String) : String :=
  match svc.getDataset dataset_id with
  | .ok d => d.getD ""
  | .error _ => ""

/-- `BigQueryTool.list_datasets` (lines 69-103).  Each row is the dict
`{"Dataset ID": ..., "Description": ...}` in insertion order. -/
def list_datasets (svc : ServiceEnv) (project_id : String) :
    CmdResult (List (List (String × Value))) :=
  if svc.listDatasetsFails then
    ⟨.error 1, ["Error listing datasets: " ++ svc.listErr]⟩
  else if svc.datasetIds.isEmpty then
    ⟨.ok [], ["No datasets found in project " ++ project_id]⟩
  else
    ⟨.ok (svc.datasetIds.map fun d =>
        [("Dataset ID", d), ("Description", datasetDescription svc d)]), []⟩

/-- The loop of lines 124-133: fetch each table's full descriptor.  A
`GoogleCloudError` raised by `get_table` escapes the loop — there is no
per-item handler here, unlike in `list_datasets`. -/
def tablesLoop (svc : ServiceEnv) :
    List String → Except String (List (List (String × Value)))
  | [] => .ok []
  | t :: rest =>
    match svc.getTable t with
    | .error e => .error e
    | .ok info =>
      match tablesLoop svc rest with
      | .error e => .error e
      | .ok acc =>
        .ok ([("Table ID", t),
              ("Type", if info.table_type = "VIEW" then "VIEW" else "TABLE"),
              ("Description", info.description.getD "")] :: acc)

/-- `BigQueryTool.list_tables` (lines 105-138).  A `GoogleCloudError`
from the loop is caught by the outer handler, which prints the error and
exits with status 1. -/
def list_tables (svc : ServiceEnv) (dataset_id : String) :
    CmdResult (List (List (String × Value))) :=
  if svc.listTablesFails then
    ⟨.error 1, ["Error listing tables in dataset " ++ dataset_id ++ ": " ++ svc.tablesErr]⟩
  else if svc.tableIds.isEmpty then
    ⟨.ok [], ["No tables found in dataset " ++ dataset_id]⟩
  else
    match tablesLoop svc svc.tableIds with
    | .ok rows => ⟨.ok rows, []⟩
    | .error e =>
      ⟨.error 1, ["Error listing tables in dataset " ++ dataset_id ++ ": " ++ e]⟩

/-- `BigQueryTool.get_schema` (lines 140-167). -/
def get_schema (svc : ServiceEnv) (dataset_id table_id : String) :
    CmdResult (List (List (String × Value))) :=
  if svc.getSchemaFails then
    ⟨.error 1, ["Error getting schema for " ++ dataset_id ++ "." ++ table_id ++ ": "
                ++ svc.schemaErr]⟩
  else
    ⟨.ok (svc.schemaFields.map fun f =>
        [("Column Name", f.name), ("Data Type", f.field_type),
         ("Nullable", if f.is_nullable then "YES" else "NO"),
         ("Description", f.description.getD "")]), []⟩

/-! ## Session bootstrap and the entry point (lines 49-67 and 254-332) -/

/-- The outcome of `BigQueryTool.__init__`: the resolved project (or the
exit code), the stdout lines and the stderr lines it printed. -/
structure InitResult where
  val : Except Nat String
  out : List String
  err : List String

/-- `BigQueryTool.__init__` (lines 49-67): construct the client, resolve
the project — `if project_id:` is a Python truthiness test, so both
`None` and the empty string fall back to `client.project`, the default
project of the credentials — and print the status line to stderr; a
`GoogleCloudError` prints to stdout and exits with status 1. -/
def toolInit (svc : ServiceEnv) (project_id : Option String) : InitResult :=
  if svc.clientFails then
    ⟨.error 1, ["Error connecting to BigQuery: " ++ svc.connectErr], []⟩
  else
    let proj :=
      match project_id with
      | some p => if p = "" then svc.clientDefaultProject else p
      | none => svc.clientDefaultProject
    ⟨.ok proj, [], ["Connected to BigQuery project: " ++ proj]⟩

/-- A parsed subcommand with its positional arguments. -/
inductive Command where
  | listDatasets
  | listTables (dataset_id : String)
  | getSchema (dataset_id : String) (table_id : String)
  | runQuery (query : List Char) (dryRun : Bool)
deriving DecidableEq

/-- The four lines printed when `GOOGLE_APPLICATION_CREDENTIALS` is not
set (lines 310-313; plain `print`, no `file=sys.stderr`). -/
def warningLines : List String :=
  ["Warning: GOOGLE_APPLICATION_CREDENTIALS environment variable is not set.",
   "Set it in your .env file to the path of your service account key file:",
   "GOOGLE_APPLICATION_CREDENTIALS=/path/to/your-key-file.json",
   "Continuing with default authentication..."]

/-- Stand-in for the text `argparse.print_help` writes to stdout when no
subcommand is given (line 305; its exact content belongs to `argparse`). -/
def helpText : String := "usage: gcp_bigquery.py [-h] ..."

/-- Lines 321-332: run the handler for the parsed subcommand and print
the formatted result to stdout. -/
def dispatch (tabulateFn strFn : List (List (String × Value)) → String)
    (svc : ServiceEnv) (proj : String) : Command → CmdResult Unit
  | .listDatasets =>
    let r := list_datasets svc proj
    match r.val with
    | .error code => ⟨.error code, r.out⟩
    | .ok data => ⟨.ok (), r.out ++ [format_output tabulateFn strFn (.rows data) "table"]⟩
  | .listTables ds =>
    let r := list_tables svc ds
    match r.val with
    | .error code => ⟨.error code, r.out⟩
    | .ok data => ⟨.ok (), r.out ++ [format_output tabulateFn strFn (.rows data) "table"]⟩
  | .getSchema ds tb =>
    let r := get_schema svc ds tb
    match r.val with
    | .error code => ⟨.error code, r.out⟩
    | .ok data => ⟨.ok (), r.out ++ [format_output tabulateFn strFn (.rows data) "table"]⟩
  | .runQuery q dr =>
    let r := run_query svc.queryService q dr
    ⟨.ok (), [format_output tabulateFn strFn r.1.toFormatData "table"]⟩

/-- `main` (lines 254-332) from `args = parser.parse_args()` onward:
given the parsed subcommand, the `--project` argument, the value of the
`GOOGLE_APPLICATION_CREDENTIALS` environment variable and the service
oracle, return the process exit status (0 when `main` returns normally)
and the lines written to stdout and to stderr, in order. -/
def mainRun (tabulateFn strFn : List (List (String × Value)) → String)
    (cmd : Option Command) (projectArg credentialsVar : Option String)
    (svc : ServiceEnv) : Nat × List String × List String :=
  match cmd with
  | none => (1, [helpText], [])
  | some c =>
    let credOut : List String :=
      match credentialsVar with
      | none => warningLines
      | some _ => []
    let credErr : List String :=
      match credentialsVar with
      | none => []
      | some path => ["Using service account key: " ++ path]
    let ini := toolInit svc projectArg
    match ini.val with
    | .error code => (code, credOut ++ ini.out, credErr ++ ini.err)
    | .ok proj =>
      let r := dispatch tabulateFn strFn svc proj c
      match r.val with
      | .error code => (code, credOut ++ ini.out ++ r.out, credErr ++ ini.err)
      | .ok _ => (0, credOut ++ ini.out ++ r.out, credErr ++ ini.err)

/-! ### Declarative exit-status characterization -/

/-- Does the descriptor fetch of `list_tables` fail for this table? -/
def fetchFails (svc : ServiceEnv) (t : String) : Bool :=
  match svc.getTable t with
  | .error _ => true
  | .ok _ => false

/-- Does the `get_table` loop of `list_tables` hit a failing fetch? -/
def anyTableFetchFails (svc : ServiceEnv) : Bool :=
  svc.tableIds.any (fetchFails svc)

/-- The exit status a run produces: non-zero exactly for a missing
subcommand, a bootstrap failure, or a fatal service failure inside
list-datasets / list-tables / get-schema; `run-query` never exits
non-zero once the session is up. -/
def exitCodeSpec (cmd : Option Command) (svc : ServiceEnv) : Nat :=
  match cmd with
  | none => 1
  | some c =>
    if svc.clientFails then 1
    else
      match c with
      | .listDatasets => if svc.listDatasetsFails then 1 else 0
      | .listTables _ => if svc.listTablesFails || anyTableFetchFails svc then 1 else 0
      | .getSchema _ _ => if svc.getSchemaFails then 1 else 0
      | .runQuery _ _ => 0

/-- A bootstrap status line: the credential-file line of line 315 or the
connected-project line of line 64 — the only lines the program sends to
stderr. -/
def IsStatusLine (l : String) : Prop :=
  (∃ p, l = "Using service account key: " ++ p) ∨
  (∃ pr, l = "Connected to BigQuery project: " ++ pr)

/-! ## Concrete fixtures for witnesses and counterexamples -/

/-- A concrete query-service oracle: healthy, 2-column schema, 7 rows. -/
def svcEx : QueryService :=
  ⟨false, "", 42, ["a", "b"],
   [["1", "2"], ["3", "4"], ["5", "6"], ["7", "8"],
    ["9", "10"], ["11", "12"], ["13", "14"]]⟩

/-- A concrete rendering function standing in for `tabulate`. -/
def tab0 : List (List (String × Value)) → String := fun _ => "TBL"

/-- A concrete rendering function standing in for Python's `str`. -/
def str0 : List (List (String × Value)) → String := fun _ => "STR"

/-- A concrete healthy service environment; the descriptor fetch for
dataset `d2` raises (and is degraded to an empty description). -/
def svcBase : ServiceEnv :=
  { clientFails := false
    connectErr := ""
    clientDefaultProject := "default-proj"
    listDatasetsFails := false
    listErr := ""
    datasetIds := ["d1", "d2"]
    getDataset := fun d => if d = "d2" then .error "boom" else .ok (some "first dataset")
    listTablesFails := false
    tablesErr := ""
    tableIds := ["t1", "t2"]
    getTable := fun _ => .ok ⟨"TABLE", some "a table"⟩
    getSchemaFails := false
    schemaErr := ""
    schemaFields := []
    queryService := svcEx }

/-- `svcBase`, except the descriptor fetch for table `t1` raises. -/
def svcTabFail : ServiceEnv :=
  { svcBase with getTable := fun t => if t = "t1" then .error "boom" else .ok ⟨"TABLE", some "ok"⟩ }

/-- `svcBase`, except enumerating datasets raises. -/
def svcLDFail : ServiceEnv :=
  { svcBase with listDatasetsFails := true, listErr := "quota" }

/-! # Theorems -/

/-! ## The safety filter (claim C1) -/

theorem occursAt_iff (kw s : List Char) (i : Nat) (hi : i ≤ s.length) :
    occursAt kw s i = true ↔ OccursAtP kw s i := by
  unfold occursAt OccursAtP
  simp only [Bool.and_eq_true, Bool.or_eq_true, Bool.not_eq_true', beq_iff_eq,
    decide_eq_true_eq, List.isPrefixOf_iff_prefix]
  constructor
  · rintro ⟨⟨hpre, hb⟩, ha⟩
    have h1 : kw.length ≤ s.length - i := by
      have := hpre.length_le
      simpa using this
    have h2 := List.prefix_iff_eq_take.1 hpre
    rw [List.length_map, ← List.map_drop, ← List.map_take] at h2
    exact ⟨by omega, h2.symm, hb, ha⟩
  · rintro ⟨hlen, heq, hb, ha⟩
    refine ⟨⟨?_, hb⟩, ha⟩
    rw [List.prefix_iff_eq_take, List.length_map, ← List.map_drop, ← List.map_take]
    exact heq.symm

theorem searchWord_iff (kw s : List Char) :
    searchWord kw s = true ↔ ContainsWholeWordCI kw s := by
  unfold searchWord ContainsWholeWordCI
  rw [List.any_eq_true]
  constructor
  · rintro ⟨i, hmem, hocc⟩
    rw [List.mem_range] at hmem
    exact ⟨i, (occursAt_iff kw s i (by omega)).1 hocc⟩
  · rintro ⟨i, hocc⟩
    have hi : i ≤ s.length := by have := hocc.1; omega
    exact ⟨i, List.mem_range.2 (by omega), (occursAt_iff kw s i hi).2 hocc⟩

theorem searchSpan_iff (kw1 kw2 s : List Char) :
    searchSpan kw1 kw2 s = true ↔ MatchesSpanCI kw1 kw2 s := by
  unfold searchSpan MatchesSpanCI
  simp only [List.any_eq_true, List.mem_range, Bool.and_eq_true, decide_eq_true_eq,
    List.all_eq_true, Bool.not_eq_true', beq_eq_false_iff_ne]
  constructor
  · rintro ⟨i, hilt, hocc1, j, hjlt, ⟨hle, hocc2⟩, hnl⟩
    exact ⟨i, j, (occursAt_iff kw1 s i (by omega)).1 hocc1,
      (occursAt_iff kw2 s j (by omega)).1 hocc2, hle, hnl⟩
  · rintro ⟨i, j, hocc1, hocc2, hle, hnl⟩
    have hi : i ≤ s.length := by have := hocc1.1; omega
    have hj : j ≤ s.length := by have := hocc2.1; omega
    exact ⟨i, by omega, (occursAt_iff kw1 s i hi).2 hocc1,
      j, by omega, ⟨hle, (occursAt_iff kw2 s j hj).2 hocc2⟩, hnl⟩

theorem checkPatterns_eq_false (ps : List (List Char → Bool)) (q : List Char) :
    checkPatterns ps q = false ↔ ∃ p ∈ ps, p q = true := by
  induction ps with
  | nil => simp [checkPatterns]
  | cons p ps ih =>
    simp only [checkPatterns]
    by_cases h : p q = true
    · simp [h]
    · rw [if_neg (by simp [h]), ih]
      simp [h]

/-- C1: `is_readonly_query(query)` returns false for every query
containing a whole-word, case-insensitive occurrence of INSERT, UPDATE,
DELETE, CREATE, DROP, ALTER, MERGE, or TRUNCATE, or matching the
GRANT...TO or REVOKE...FROM span patterns; and returns true for every
query matching none of those patterns. -/
theorem c1_is_readonly_query_spec (q : List Char) :
    is_readonly_query q = false ↔ NonReadonly q := by
  unfold is_readonly_query NonReadonly NON_READONLY_PATTERNS
  rw [checkPatterns_eq_false]
  constructor
  · rintro ⟨p, hp, hpq⟩
    simp only [List.mem_cons, List.not_mem_nil, or_false] at hp
    rcases hp with h | h | h
    · subst h
      rw [List.any_eq_true] at hpq
      obtain ⟨kw, hkw, hw⟩ := hpq
      exact Or.inl ⟨kw, hkw, (searchWord_iff kw q).1 hw⟩
    · subst h
      exact Or.inr (Or.inl ((searchSpan_iff _ _ q).1 hpq))
    · subst h
      exact Or.inr (Or.inr ((searchSpan_iff _ _ q).1 hpq))
  · rintro (⟨kw, hkw, hw⟩ | h | h)
    · exact ⟨_, List.mem_cons_self _ _,
        List.any_eq_true.2 ⟨kw, hkw, (searchWord_iff kw q).2 hw⟩⟩
    · exact ⟨_, List.mem_cons.2 (Or.inr (List.mem_cons_self _ _)),
        (searchSpan_iff _ _ q).2 h⟩
    · exact ⟨_, List.mem_cons.2 (Or.inr (List.mem_cons.2 (Or.inr (List.mem_cons_self _ _)))),
        (searchSpan_iff _ _ q).2 h⟩

example : is_readonly_query "SELECT * FROM t".data = true := by decide
example : is_readonly_query "select * from t; DROP TABLE t".data = false := by decide
example : is_readonly_query "GRANT SELECT ON t TO user".data = false := by decide

/-! ## `run_query` (claims C2, C3, C4) -/

/-- C2: for every query rejected by the safety filter, `run_query`
returns exactly the fixed rejection string and issues zero calls to the
warehouse service, regardless of the `dry_run` flag. -/
theorem c2_run_query_rejected (svc : QueryService) (q : List Char) (dry_run : Bool)
    (h : is_readonly_query q = false) :
    run_query svc q dry_run = (.msg REJECT_MSG, []) := by
  unfold run_query
  rw [h]
  rfl

/-- Witness for C2 at a concrete mutating query. -/
theorem c2_run_query_rejected_witness :
    run_query svcEx "DROP TABLE t".data true = (.msg REJECT_MSG, []) :=
  c2_run_query_rejected svcEx "DROP TABLE t".data true (by decide)

theorem mkRowDict_eq_zip (f : List String) (r : List Value) (h : f.length ≤ r.length) :
    mkRowDict f r = f.zip r := by
  apply List.ext_getElem
  · simp only [mkRowDict, List.length_map, List.enum_length, List.length_zip]
    omega
  · intro i h1 h2
    simp only [mkRowDict, List.length_map, List.enum_length] at h1
    simp only [mkRowDict, List.getElem_map, List.getElem_enum, List.getElem_zip]
    rw [List.getD_eq_getElem r "" (by omega)]

theorem consumeLoop_eq_take (f : List String) (rows : List (List Value)) (c : Nat)
    (hc : c < 5) :
    consumeLoop f rows c = (rows.take (5 - c)).map (mkRowDict f) := by
  induction rows generalizing c with
  | nil => simp [consumeLoop]
  | cons row rest ih =>
    by_cases h : 5 ≤ c + 1
    · have hc5 : c = 4 := by omega
      subst hc5
      simp [consumeLoop]
    · rw [consumeLoop, if_neg h, ih (c + 1) (by omega)]
      have h5 : 5 - c = (5 - (c + 1)) + 1 := by omega
      rw [h5]
      simp

/-- C3: for every accepted, executed query, `run_query` returns at most 5
result rows even when the service reports more; the rows are the first
(at most) five service rows in service order, each keyed by the
service-reported field names in schema order; and the only calls issued
are the submission of the caller's query, unmodified, and the capped
result fetch.  The hypothesis `hrows` states that the service's rows are
as wide as its schema, which the real warehouse guarantees. -/
theorem c3_run_query_row_cap (svc : QueryService) (q : List Char)
    (hq : is_readonly_query q = true) (hok : svc.failQuery = false)
    (hrows : ∀ r ∈ svc.resultRows, svc.schemaFieldNames.length ≤ r.length) :
    ∃ rs, run_query svc q false =
        (.rows rs, [.queryJob q false, .fetchResults 5]) ∧
      rs = (svc.resultRows.take 5).map (fun r => svc.schemaFieldNames.zip r) ∧
      rs.length ≤ 5 ∧
      ∀ row ∈ rs, row.map Prod.fst = svc.schemaFieldNames := by
  have hcalc : consumeLoop svc.schemaFieldNames (svc.resultRows.take 5) 0
      = (svc.resultRows.take 5).map (fun r => svc.schemaFieldNames.zip r) := by
    rw [consumeLoop_eq_take _ _ 0 (by omega), Nat.sub_zero, List.take_take,
      Nat.min_self]
    apply List.map_congr_left
    intro r hr
    exact mkRowDict_eq_zip _ _ (hrows r (List.take_subset _ _ hr))
  refine ⟨(svc.resultRows.take 5).map (fun r => svc.schemaFieldNames.zip r),
    ?_, rfl, ?_, ?_⟩
  · simp [run_query, hq, hok, hcalc]
  · rw [List.length_map, List.length_take]
    exact min_le_left _ _
  · intro row hrow
    rw [List.mem_map] at hrow
    obtain ⟨r, hr, hrr⟩ := hrow
    rw [← hrr]
    exact List.map_fst_zip _ _ (hrows r (List.take_subset _ _ hr))

/-- Witness for C3 at a concrete service with 7 rows available. -/
theorem c3_run_query_row_cap_witness :
    ∃ rs, run_query svcEx "SELECT 1".data false =
        (.rows rs, [.queryJob "SELECT 1".data false, .fetchResults 5]) ∧
      rs = (svcEx.resultRows.take 5).map (fun r => svcEx.schemaFieldNames.zip r) ∧
      rs.length ≤ 5 ∧
      ∀ row ∈ rs, row.map Prod.fst = svcEx.schemaFieldNames :=
  c3_run_query_row_cap svcEx "SELECT 1".data (by decide) rfl (by decide)

/-- C4: for every accepted query with `dry_run = true`, `run_query` never
fetches result rows; and (when the service does not raise) issues only
the validation-only submission of the query and returns a message
containing the service-reported estimated bytes processed. -/
theorem c4_run_query_dry_run (svc : QueryService) (q : List Char)
    (hq : is_readonly_query q = true) :
    (∀ n, ServiceCall.fetchResults n ∉ (run_query svc q true).2) ∧
    (svc.failQuery = false →
      ∃ m, run_query svc q true = (.msg m, [.queryJob q true]) ∧
        ∃ pre post, m = pre ++ toString svc.total_bytes_processed ++ post) := by
  constructor
  · intro n
    by_cases hf : svc.failQuery = true <;> simp [run_query, hq, hf]
  · intro hok
    refine ⟨"Query validation successful. Estimated bytes processed: " ++
        toString svc.total_bytes_processed ++ " bytes.", ?_,
      "Query validation successful. Estimated bytes processed: ", " bytes.", rfl⟩
    simp [run_query, hq, hok]

/-- Witness for C4 at a concrete service reporting 42 estimated bytes. -/
theorem c4_run_query_dry_run_witness :
    ∃ m, run_query svcEx "SELECT 1".data true =
        (.msg m, [.queryJob "SELECT 1".data true]) ∧
      ∃ pre post, m = pre ++ toString svcEx.total_bytes_processed ++ post :=
  (c4_run_query_dry_run svcEx "SELECT 1".data (by decide)).2 rfl

/-! ## `format_output` (claim C5)

`format_output` runs `if not data:` before `isinstance(data, str)`, and
the empty string is falsy in Python, so the empty string is not passed
through unchanged: it becomes "No data to display.". -/

/-- C5 counterexample: the empty string input is not returned unchanged,
refuting identity passthrough for every string input. -/
theorem c5_format_output_counterexample :
    format_output tab0 str0 (.str "") "table" ≠ "" := by decide

/-- C5 (amended): `format_output` returns a string input unchanged
whenever the string is non-empty, and returns exactly
"No data to display." on an empty sequence of rows — and, because the
truthiness check precedes the string check, on the empty string too. -/
theorem c5_format_output_passthrough
    (tabulateFn strFn : List (List (String × Value)) → String) (format_type : String) :
    (∀ s : String, s ≠ "" → format_output tabulateFn strFn (.str s) format_type = s) ∧
    format_output tabulateFn strFn (.rows []) format_type = "No data to display." ∧
    format_output tabulateFn strFn (.str "") format_type = "No data to display." := by
  refine ⟨?_, rfl, rfl⟩
  intro s hs
  have hne : s.isEmpty = false := by
    rw [Bool.eq_false_iff]
    intro h
    exact hs ((String.isEmpty_iff s).1 h)
  simp [format_output, FormatData.falsy, hne]

/-- Witness for C5's amended statement at a concrete non-empty string. -/
theorem c5_format_output_passthrough_witness :
    format_output tab0 str0 (.str "Error: boom") "table" = "Error: boom" :=
  (c5_format_output_passthrough tab0 str0 "table").1 "Error: boom" (by decide)

/-! ## Per-item descriptor failures during listing (claim C6) -/

theorem tablesLoop_error_of_mem (svc : ServiceEnv) (ts : List String) (t : String)
    (ht : t ∈ ts) (e : String) (he : svc.getTable t = .error e) :
    ∃ e2, tablesLoop svc ts = .error e2 := by
  induction ts with
  | nil => cases ht
  | cons a rest ih =>
    cases hg : svc.getTable a with
    | error x => exact ⟨x, by simp [tablesLoop, hg]⟩
    | ok info =>
      rcases List.mem_cons.1 ht with h | h
      · subst h
        rw [hg] at he
        cases he
      · obtain ⟨e2, he2⟩ := ih h
        exact ⟨e2, by simp [tablesLoop, hg, he2]⟩

/-- C6 counterexample: in `list_tables` a failing per-item descriptor
fetch (here for table `t1`) aborts the whole listing with exit status 1;
the remaining items are not returned and the failure does not degrade to
an empty description. -/
theorem c6_counterexample :
    (list_tables svcTabFail "ds").val = Except.error 1 := rfl

/-- C6 (amended): during `list_datasets` a failure to fetch an individual
dataset's full descriptor degrades that dataset's description to the
empty string and the listing still returns every item; during
`list_tables`, however, a failure to fetch an individual table's
descriptor aborts the command, which exits with status 1. -/
theorem c6_descriptor_failures (svc : ServiceEnv) (proj ds : String) :
    (svc.listDatasetsFails = false →
      ∃ l, (list_datasets svc proj).val = .ok l ∧
        l = svc.datasetIds.map
          (fun d => [("Dataset ID", d), ("Description", datasetDescription svc d)]) ∧
        ∀ d, (∃ e, svc.getDataset d = .error e) → datasetDescription svc d = "") ∧
    (svc.listTablesFails = false →
      (∃ t ∈ svc.tableIds, ∃ e, svc.getTable t = .error e) →
      (list_tables svc ds).val = Except.error 1) := by
  constructor
  · intro hl
    have hdeg : ∀ d, (∃ e, svc.getDataset d = .error e) → datasetDescription svc d = "" := by
      rintro d ⟨e, he⟩
      simp [datasetDescription, he]
    by_cases he : svc.datasetIds.isEmpty
    · rw [List.isEmpty_iff] at he
      exact ⟨[], by simp [list_datasets, hl, he], by simp [he], hdeg⟩
    · refine ⟨_, ?_, rfl, hdeg⟩
      simp [list_datasets, hl, he]
  · rintro hl ⟨t, ht, e, he⟩
    obtain ⟨e2, he2⟩ := tablesLoop_error_of_mem svc svc.tableIds t ht e he
    have hne : svc.tableIds.isEmpty = false := by
      cases hh : svc.tableIds with
      | nil => rw [hh] at ht; cases ht
      | cons a rest => rfl
    simp [list_tables, hl, hne, he2]

/-- Witness for C6's amended statement: `svcBase`'s descriptor fetch for
dataset `d2` raises, and the listing still returns both datasets, `d2`
with an empty description. -/
theorem c6_descriptor_failures_witness :
    ∃ l, (list_datasets svcBase "p").val = .ok l ∧
      l = svcBase.datasetIds.map
        (fun d => [("Dataset ID", d), ("Description", datasetDescription svcBase d)]) ∧
      ∀ d, (∃ e, svcBase.getDataset d = .error e) → datasetDescription svcBase d = "" :=
  (c6_descriptor_failures svcBase "p" "ds").1 rfl

/-! ## Exit status of `main` (claim C7) -/

theorem tablesLoop_ok_no_fail (svc : ServiceEnv) (ts : List String)
    (rows : List (List (String × Value))) (h : tablesLoop svc ts = .ok rows) :
    ts.any (fetchFails svc) = false := by
  induction ts generalizing rows with
  | nil => rfl
  | cons a rest ih =>
    rw [tablesLoop] at h
    cases hg : svc.getTable a with
    | error e =>
      rw [hg] at h
      cases h
    | ok info =>
      rw [hg] at h
      cases hr : tablesLoop svc rest with
      | error e =>
        rw [hr] at h
        cases h
      | ok acc =>
        simp [List.any_cons, fetchFails, hg, ih acc hr]

theorem tablesLoop_error_any_fail (svc : ServiceEnv) (ts : List String) (e : String)
    (h : tablesLoop svc ts = .error e) :
    ts.any (fetchFails svc) = true := by
  induction ts generalizing e with
  | nil =>
    rw [tablesLoop] at h
    cases h
  | cons a rest ih =>
    rw [tablesLoop] at h
    cases hg : svc.getTable a with
    | error e2 => simp [List.any_cons, fetchFails, hg]
    | ok info =>
      rw [hg] at h
      cases hr : tablesLoop svc rest with
      | error e2 => simp [List.any_cons, ih e2 hr]
      | ok acc =>
        rw [hr] at h
        cases h

/-- C7 counterexample: a run with a subcommand given and a successful
session bootstrap still exits non-zero — `list-datasets` hits a service
enumeration failure — refuting "exits non-zero exactly when no
subcommand is given or when session bootstrap fails". -/
theorem c7_counterexample :
    (mainRun tab0 str0 (some .listDatasets) none (some "key") svcLDFail).1 = 1 ∧
    some Command.listDatasets ≠ (none : Option Command) ∧
    svcLDFail.clientFails = false :=
  ⟨rfl, by simp, rfl⟩

/-- C7 (amended): the process exits non-zero exactly when no subcommand
is given, when session bootstrap fails, or when list-datasets,
list-tables or get-schema hits a fatal service error (enumeration, or a
per-table descriptor fetch); every other run exits zero, including runs
in which run-query printed a command-level error message to stdout. -/
theorem c7_exit_code (tabulateFn strFn : List (List (String × Value)) → String)
    (cmd : Option Command) (projectArg credentialsVar : Option String)
    (svc : ServiceEnv) :
    (mainRun tabulateFn strFn cmd projectArg credentialsVar svc).1 =
      exitCodeSpec cmd svc := by
  cases cmd with
  | none => rfl
  | some c =>
    by_cases hc : svc.clientFails = true
    · simp [mainRun, toolInit, exitCodeSpec, hc]
    · rw [Bool.not_eq_true] at hc
      cases c with
      | listDatasets =>
        by_cases hl : svc.listDatasetsFails = true
        · simp [mainRun, toolInit, dispatch, list_datasets, exitCodeSpec, hc, hl]
        · rw [Bool.not_eq_true] at hl
          by_cases he : svc.datasetIds.isEmpty = true <;>
            simp_all [mainRun, toolInit, dispatch, list_datasets, exitCodeSpec]
      | listTables ds =>
        by_cases hl : svc.listTablesFails = true
        · simp [mainRun, toolInit, dispatch, list_tables, exitCodeSpec, hc, hl]
        · rw [Bool.not_eq_true] at hl
          by_cases he : svc.tableIds.isEmpty = true
          · have hfa : anyTableFetchFails svc = false := by
              rw [List.isEmpty_iff] at he
              simp [anyTableFetchFails, he]
            simp [mainRun, toolInit, dispatch, list_tables, exitCodeSpec, hc, hl, he, hfa]
          · cases hres : tablesLoop svc svc.tableIds with
            | ok rows =>
              have hfa : svc.tableIds.any (fetchFails svc) = false :=
                tablesLoop_ok_no_fail svc svc.tableIds rows hres
              simp [mainRun, toolInit, dispatch, list_tables, exitCodeSpec, hc, hl, he,
                hres, anyTableFetchFails, hfa]
            | error e =>
              have hfa : svc.tableIds.any (fetchFails svc) = true :=
                tablesLoop_error_any_fail svc svc.tableIds e hres
              simp [mainRun, toolInit, dispatch, list_tables, exitCodeSpec, hc, hl, he,
                hres, anyTableFetchFails, hfa]
      | getSchema ds tb =>
        by_cases hs : svc.getSchemaFails = true <;>
          simp_all [mainRun, toolInit, dispatch, get_schema, exitCodeSpec]
      | runQuery q dr =>
        simp [mainRun, toolInit, dispatch, exitCodeSpec, hc]

/-! ## Diagnostic and primary output streams (claim C8) -/

theorem mainRun_err_eq (tabulateFn strFn : List (List (String × Value)) → String)
    (c : Command) (projectArg credentialsVar : Option String) (svc : ServiceEnv) :
    (mainRun tabulateFn strFn (some c) projectArg credentialsVar svc).2.2 =
      (match credentialsVar with
        | none => ([] : List String)
        | some path => ["Using service account key: " ++ path]) ++
      (toolInit svc projectArg).err := by
  unfold mainRun
  cases hi : (toolInit svc projectArg).val with
  | error code => simp [hi]
  | ok proj =>
    cases hd : (dispatch tabulateFn strFn svc proj c).val with
    | error code => simp [hi, hd]
    | ok u => simp [hi, hd]

theorem toolInit_err_status (svc : ServiceEnv) (projectArg : Option String) :
    ∀ l ∈ (toolInit svc projectArg).err, ∃ pr, l = "Connected to BigQuery project: " ++ pr := by
  unfold toolInit
  by_cases hc : svc.clientFails = true
  · simp [hc]
  · rw [Bool.not_eq_true] at hc
    intro l hl
    simp only [hc, Bool.false_eq_true, if_false, List.mem_singleton] at hl
    exact ⟨_, hl⟩

/-- C8 counterexample: in a run with the credential environment variable
absent, the warning is written to stdout and not to stderr, refuting
"written to the diagnostic stream (stderr) and never to the primary
output stream (stdout)". -/
theorem c8_counterexample :
    "Warning: GOOGLE_APPLICATION_CREDENTIALS environment variable is not set."
      ∈ (mainRun tab0 str0 (some .listDatasets) (some "p") none svcBase).2.1 ∧
    "Warning: GOOGLE_APPLICATION_CREDENTIALS environment variable is not set."
      ∉ (mainRun tab0 str0 (some .listDatasets) (some "p") none svcBase).2.2 := by
  decide

/-- C8 (amended): in every run that reaches the bootstrap, the one-line
credential-file status is written to stderr whenever the credential
environment variable is set, and the one-line connected-project status
is written to stderr whenever the session bootstrap succeeds; those
status lines are the only lines ever written to stderr.  The warning
emitted when the credential environment variable is absent goes to
stdout instead (it leads the stdout of every such run), along with the
formatted command output. -/
theorem c8_diagnostic_streams (tabulateFn strFn : List (List (String × Value)) → String)
    (cmd : Option Command) (projectArg credentialsVar : Option String)
    (svc : ServiceEnv) :
    (∀ l ∈ (mainRun tabulateFn strFn cmd projectArg credentialsVar svc).2.2,
      IsStatusLine l) ∧
    (∀ c, cmd = some c →
      (∀ path, credentialsVar = some path →
        "Using service account key: " ++ path ∈
          (mainRun tabulateFn strFn cmd projectArg credentialsVar svc).2.2) ∧
      (svc.clientFails = false →
        ∃ pr, (toolInit svc projectArg).val = .ok pr ∧
          "Connected to BigQuery project: " ++ pr ∈
            (mainRun tabulateFn strFn cmd projectArg credentialsVar svc).2.2)) ∧
    (∀ c, cmd = some c → credentialsVar = none →
      ∃ rest, (mainRun tabulateFn strFn cmd projectArg credentialsVar svc).2.1 =
        warningLines ++ rest) := by
  refine ⟨?_, ?_, ?_⟩
  · intro l hl
    cases cmd with
    | none => simp [mainRun] at hl
    | some c =>
      rw [mainRun_err_eq] at hl
      rcases List.mem_append.1 hl with h | h
      · cases credentialsVar with
        | none => cases h
        | some path =>
          rw [List.mem_singleton] at h
          exact Or.inl ⟨path, h⟩
      · exact Or.inr (toolInit_err_status svc projectArg l h)
  · rintro c hcmd
    subst hcmd
    constructor
    · rintro path hpath
      subst hpath
      rw [mainRun_err_eq]
      exact List.mem_append_left _ (List.mem_singleton.2 rfl)
    · intro hc
      rw [mainRun_err_eq]
      unfold toolInit
      simp only [hc, Bool.false_eq_true, if_false]
      exact ⟨_, rfl, List.mem_append_right _ (List.mem_singleton.2 rfl)⟩
  · rintro c hcmd hcv
    subst hcmd
    subst hcv
    unfold mainRun
    cases hi : (toolInit svc projectArg).val with
    | error code =>
      exact ⟨(toolInit svc projectArg).out, by simp [hi]⟩
    | ok proj =>
      cases hd : (dispatch tabulateFn strFn svc proj c).val with
      | error code =>
        exact ⟨(toolInit svc projectArg).out ++
          (dispatch tabulateFn strFn svc proj c).out, by simp [hi, hd]⟩
      | ok u =>
        exact ⟨(toolInit svc projectArg).out ++
          (dispatch tabulateFn strFn svc proj c).out, by simp [hi, hd]⟩

/-- Witness for C8's amended statement at a concrete run with the
credential variable set and a healthy client: both status lines land on
stderr. -/
theorem c8_diagnostic_streams_witness :
    "Using service account key: /k.json" ∈
      (mainRun tab0 str0 (some .listDatasets) (some "p") (some "/k.json") svcBase).2.2 ∧
    ∃ pr, (toolInit svcBase (some "p")).val = .ok pr ∧
      "Connected to BigQuery project: " ++ pr ∈
        (mainRun tab0 str0 (some .listDatasets) (some "p") (some "/k.json") svcBase).2.2 :=
  ⟨((c8_diagnostic_streams tab0 str0 (some .listDatasets) (some "p") (some "/k.json")
      svcBase).2.1 Command.listDatasets rfl).1 "/k.json" rfl,
   ((c8_diagnostic_streams tab0 str0 (some .listDatasets) (some "p") (some "/k.json")
      svcBase).2.1 Command.listDatasets rfl).2 rfl⟩

/-! ## Project resolution (claims C9 and C10) -/

/-- C9: once the session is resolved its project identifier is non-empty
— under the external client's guarantee that the credential default
project is a non-empty string — and an explicitly supplied non-empty
project argument takes precedence over the client's default. -/
theorem c9_project_invariant (svc : ServiceEnv) (projectArg : Option String)
    (hc : svc.clientFails = false) (hd : svc.clientDefaultProject ≠ "") :
    ∃ proj, (toolInit svc projectArg).val = .ok proj ∧ proj ≠ "" ∧
      ∀ p, projectArg = some p → p ≠ "" → proj = p := by
  cases projectArg with
  | none =>
    refine ⟨svc.clientDefaultProject, by simp [toolInit, hc], hd, ?_⟩
    intro p hp
    cases hp
  | some p =>
    by_cases hp : p = ""
    · subst hp
      refine ⟨svc.clientDefaultProject, by simp [toolInit, hc], hd, ?_⟩
      intro p2 hp2 hne
      injection hp2 with h
      exact absurd h.symm hne
    · refine ⟨p, by simp [toolInit, hc, hp], hp, ?_⟩
      intro p2 hp2 _
      exact Option.some.inj hp2

/-- Witness for C9 at a concrete explicit project argument. -/
theorem c9_project_invariant_witness :
    ∃ proj, (toolInit svcBase (some "explicit")).val = .ok proj ∧ proj ≠ "" ∧
      ∀ p, (some "explicit" : Option String) = some p → p ≠ "" → proj = p :=
  c9_project_invariant svcBase (some "explicit") rfl (by decide)

/-- C10: when the explicit project argument is the empty string — a
supplied but falsy value — the session's project resolves to the
client's default project, not to the empty string. -/
theorem c10_empty_project_arg (svc : ServiceEnv) (hc : svc.clientFails = false) :
    (toolInit svc (some "")).val = .ok svc.clientDefaultProject := by
  simp [toolInit, hc]

/-- Witness for C10 at a concrete environment. -/
theorem c10_empty_project_arg_witness :
    (toolInit svcBase (some "")).val = .ok svcBase.clientDefaultProject :=
  c10_empty_project_arg svcBase rfl

end BQ
